import Mathlib

/-
Verification of the chatgpt_api_cli conversation manager and transport adapter.

Shallow embedding of the Rust sources:
  - src/src/bot.rs     : Chat, ChatBot (history manager, ChatBot::chat, ChatBot::clear)
  - src/src/client.rs  : Client::send (transport adapter)
  - src/src/main.rs    : auth_token, plus the inline variant of ChatBot::chat

The wire structures live in the crate module `api` / `chat_api`, whose file is
not part of the sources here; its struct shapes are modelled from the spec
(section 3, Data Model) and from how the fields are used in client.rs and
main.rs.  The HTTP exchange itself (reqwest POST, body download, serde parse)
is abstracted: the outcome of the single POST is an explicit `RemoteResponse`
value, with the response body given as either a parsed envelope or a
deserialization failure.  Logging (`info!`) has no observable effect on the
results and is not modelled.
-/

set_option autoImplicit false

namespace ChatGptCli

instance {ε α : Type} [DecidableEq ε] [DecidableEq α] : DecidableEq (Except ε α) :=
  fun x y =>
    match x, y with
    | .error a, .error b => decidable_of_iff (a = b) (by simp)
    | .error _, .ok _ => isFalse (by simp)
    | .ok _, .error _ => isFalse (by simp)
    | .ok a, .ok b => decidable_of_iff (a = b) (by simp)

/-- Embedding of Rust `str::trim`: remove leading and trailing whitespace.
Defined structurally on the character list so that it evaluates inside the
kernel (core `String.trim` is defined by well-founded recursion on byte
positions and does not reduce). -/
def rust_trim (s : String) : String :=
  ⟨((s.data.dropWhile Char.isWhitespace).reverse.dropWhile Char.isWhitespace).reverse⟩

/-- Split a character list at newline characters (used only by the
spec-modelled credential definition below). -/
def split_lines : List Char → List (List Char)
  | [] => [[]]
  | c :: cs =>
    if c = '\n' then
      [] :: split_lines cs
    else
      match split_lines cs with
      | [] => [[c]]
      | l :: ls => (c :: l) :: ls

/-- Modelled from the spec: a Message of the `chat_api` module (file not in
the sources): one conversational turn, a `role` string and optional text
`content` (absent when a reply carries no textual content). -/
structure Message where
  role : String
  content : Option String
deriving DecidableEq, Repr, Inhabited

/-- Modelled from the spec: one `choice` entry of the response envelope,
wrapping a Message (only the first choice is consulted by the code). -/
structure Choice where
  message : Message
deriving DecidableEq, Repr, Inhabited

/-- Modelled from the spec: the `usage` record of the response envelope,
carrying the total token count (`u32` in Rust, modelled as `Nat`). -/
structure Usage where
  total_tokens : Nat
deriving DecidableEq, Repr, Inhabited

/-- Modelled from the spec: the inbound Response Envelope — an ordered list of
choices and a usage record. -/
structure ChatResponse where
  choices : List Choice
  usage : Usage
deriving DecidableEq, Repr, Inhabited

/-- Modelled from the spec: the outbound Request Envelope — model identifier,
the full ordered message history, and the sampling temperature.  The Rust
struct has further optional fields which `..Default::default()` leaves absent;
they are never set by this program and are omitted here.  The temperature is
the literal 0.7, modelled as the rational 7/10 (no arithmetic is performed
on it). -/
structure ChatRequest where
  model : String
  messages : List Message
  temperature : Option ℚ
deriving DecidableEq, Repr

/-- src/src/client.rs line 5 and src/src/main.rs line 24: the fixed model
constant. -/
def MODEL : String := "gpt-3.5-turbo"

/-- src/src/client.rs line 6 and src/src/main.rs line 25: the fixed endpoint
URL. -/
def URL : String := "https://api.openai.com/v1/chat/completions"

/-- reqwest `StatusCode::is_success`: 2xx. -/
def status_is_success (s : Nat) : Bool :=
  decide (200 ≤ s) && decide (s < 300)

/-- reqwest `StatusCode::is_server_error`: 5xx (used only by the main.rs
variant). -/
def status_is_server_error (s : Nat) : Bool :=
  decide (500 ≤ s) && decide (s < 600)

/-- The failure taxonomy of the program.  In Rust every failure is an `anyhow`
error built at a distinct source location; each constructor records which
location produced it, with the data the format string interpolates. -/
inductive ChatError where
  /-- client.rs line 46 / main.rs line 113: the POST itself failed. -/
  | transport_error (cause : String)
  /-- main.rs line 119 only: 5xx status. -/
  | server_error (status : Nat)
  /-- client.rs line 54 / main.rs line 121: non-success status. -/
  | remote_status_error (status : Nat)
  /-- client.rs lines 61-62 / main.rs lines 129-130: body could not be read or
  did not parse as a ChatResponse. -/
  | deserialization_error (cause : String)
  /-- client.rs line 66 / main.rs line 131: empty choices list. -/
  | no_choice_error
  /-- bot.rs line 62 / main.rs line 142: reply Message has no content. -/
  | missing_content_error
deriving DecidableEq, Repr

/-- The outcome of the single blocking POST performed by `send`: either the
request could not be completed at all (reqwest `Err`), or the server answered
with a status code and a body.  The body is abstracted past `resp.text()` and
`serde_json::from_str`: either a deserialization failure or the parsed
envelope. -/
inductive RemoteResponse where
  | transport_failure (cause : String)
  | http_response (status : Nat) (body : Except String ChatResponse)
deriving DecidableEq, Repr, Inhabited

/-- src/src/client.rs lines 25-30: the Request Envelope built by
`Client::send` — model = MODEL, messages = a copy of the history,
temperature = Some(0.7), all other fields default. -/
def Client.build_request (messages : List Message) : ChatRequest :=
  { model := MODEL, messages := messages, temperature := some (0.7 : ℚ) }

/-- src/src/client.rs lines 24-70, `Client::send`.  `auth_token` goes into the
bearer header of the abstracted POST; `remote` is the outcome of that POST.
The two `info!` log lines have no effect on the result. -/
def Client.send (auth_token : String) (messages : List Message)
    (remote : RemoteResponse) : Except ChatError (Message × Nat) :=
  let _request := Client.build_request messages
  let _bearer := auth_token
  match remote with
  | .transport_failure e => .error (.transport_error e)
  | .http_response status body =>
    if !status_is_success status then
      .error (.remote_status_error status)
    else
      match body with
      | .error e => .error (.deserialization_error e)
      | .ok r =>
        match r.choices.head? with
        | none => .error .no_choice_error
        | some choice => .ok (choice.message, r.usage.total_tokens)

/-- src/src/bot.rs lines 7-9: the conversation history. -/
structure Chat where
  messages : List Message
deriving DecidableEq, Repr

/-- src/src/bot.rs lines 12-14: `Chat::new`. -/
def Chat.new : Chat := ⟨[]⟩

/-- src/src/bot.rs lines 17-22: `Chat::add_user_text` — push a user Message
with role "user" and content Some(text). -/
def Chat.add_user_text (c : Chat) (text : String) : Chat :=
  ⟨c.messages ++ [⟨"user", some text⟩]⟩

/-- src/src/bot.rs lines 25-27: `Chat::add_message`. -/
def Chat.add_message (c : Chat) (m : Message) : Chat :=
  ⟨c.messages ++ [m]⟩

/-- src/src/bot.rs lines 30-32: `Chat::clear`. -/
def Chat.clear (_c : Chat) : Chat := ⟨[]⟩

/-- src/src/bot.rs lines 36-39: ChatBot owns the Chat and the Client; of the
Client's state only the auth token is data. -/
structure ChatBot where
  chat : Chat
  auth_token : String
deriving DecidableEq, Repr

/-- src/src/bot.rs lines 42-47: `ChatBot::new`. -/
def ChatBot.new (auth_token : String) : ChatBot :=
  ⟨Chat.new, auth_token⟩

/-- src/src/bot.rs lines 52-64: `ChatBot::chat` (the spec's `submit`; the Lean
name avoids the clash with the `chat` field projection).  Appends the user
text, sends the whole history, appends the reply on success, then returns the
reply's content and the token count, or fails with the content missing. -/
def ChatBot.submit (b : ChatBot) (text : String) (remote : RemoteResponse) :
    ChatBot × Except ChatError (String × Nat) :=
  match Client.send b.auth_token (b.chat.add_user_text text).messages remote with
  | .error e => ({ b with chat := b.chat.add_user_text text }, .error e)
  | .ok (gpt_message, tokens) =>
    match gpt_message.content with
    | none =>
      ({ b with chat := (b.chat.add_user_text text).add_message gpt_message },
       .error .missing_content_error)
    | some t =>
      ({ b with chat := (b.chat.add_user_text text).add_message gpt_message },
       .ok (t, tokens))

/-- src/src/bot.rs lines 67-69: `ChatBot::clear`. -/
def ChatBot.clear (b : ChatBot) : ChatBot :=
  { b with chat := b.chat.clear }

/-- src/src/main.rs lines 31-45, `auth_token`.  The environment is modelled by
the value of the OPENAI_API_KEY variable (`none` when unset), the file system
by the contents of open_ai_auth_key.txt (`none` when unreadable).  When the
variable is unset the code returns the ENTIRE file contents trimmed
(`s.trim().to_string()`). -/
def auth_token (env_var : Option String) (key_file : Option String) :
    Except String String :=
  match env_var with
  | some s => .ok s
  | none =>
    match key_file with
    | some contents => .ok (rust_trim contents)
    | none =>
      .error "couldn't find OpenAI authentication key in environment variable or file"

/-- Modelled from the spec: the spec (section 6) says the credential read from
the key file is the "first non-empty line, trimmed".  This definition follows
those words, to be compared with `auth_token` above. -/
def spec_first_nonempty_line_trimmed (s : String) : String :=
  match (split_lines s.data).find? (fun line => rust_trim ⟨line⟩ != "") with
  | some line => rust_trim ⟨line⟩
  | none => ""

/-- src/src/main.rs lines 74-78: the ChatBot of the inline variant — auth
token, Chat, reqwest client (no data beyond the token). -/
structure MainChatBot where
  auth_token : String
  chat : Chat
deriving DecidableEq, Repr

/-- src/src/main.rs lines 81-87: `ChatBot::new` of the inline variant. -/
def MainChatBot.new (auth_token : String) : MainChatBot :=
  ⟨auth_token, Chat.new⟩

/-- src/src/main.rs lines 88-145: the inline `ChatBot::chat` (the spec's
`submit`).  Differences from the bot.rs/client.rs variant: the request is
built and sent inline, a 5xx status takes a dedicated error branch before the
general non-success check, the reply is appended after deserialization inside
the same function, and the returned pair is (tokens, text). -/
def MainChatBot.submit (b : MainChatBot) (text : String)
    (remote : RemoteResponse) : MainChatBot × Except ChatError (Nat × String) :=
  let _request : ChatRequest :=
    { model := MODEL
      messages := (b.chat.add_user_text text).messages
      temperature := some (0.7 : ℚ) }
  match remote with
  | .transport_failure e =>
    ({ b with chat := b.chat.add_user_text text }, .error (.transport_error e))
  | .http_response status body =>
    if status_is_server_error status then
      ({ b with chat := b.chat.add_user_text text }, .error (.server_error status))
    else if !status_is_success status then
      ({ b with chat := b.chat.add_user_text text },
       .error (.remote_status_error status))
    else
      match body with
      | .error e =>
        ({ b with chat := b.chat.add_user_text text },
         .error (.deserialization_error e))
      | .ok r =>
        match r.choices.head? with
        | none =>
          ({ b with chat := b.chat.add_user_text text }, .error .no_choice_error)
        | some choice =>
          match choice.message.content with
          | none =>
            ({ b with chat := (b.chat.add_user_text text).add_message choice.message },
             .error .missing_content_error)
          | some t =>
            ({ b with chat := (b.chat.add_user_text text).add_message choice.message },
             .ok (r.usage.total_tokens, t))

/-- The message history `ChatBot::chat` hands to `Client::send`
(src/src/bot.rs line 54): the history after the user text is appended. -/
def ChatBot.sent_history (b : ChatBot) (text : String) : List Message :=
  (b.chat.add_user_text text).messages

/-- Run a sequence of `submit` calls (each given its input text and the
outcome of its POST) and collect, per call, the history passed to
`Client::send`. -/
def ChatBot.run_trace (b : ChatBot) :
    List (String × RemoteResponse) → List (List Message)
  | [] => []
  | (t, r) :: rest =>
    b.sent_history t :: ((b.submit t r).1.run_trace rest)

/-- The ChatBot state after a sequence of `submit` calls. -/
def ChatBot.state_after (b : ChatBot) :
    List (String × RemoteResponse) → ChatBot
  | [] => b
  | (t, r) :: rest => ((b.submit t r).1.state_after rest)

/-- The spec's fixture response — one choice whose message has role assistant
and content Hello!, with usage.total_tokens = 42 — modelled past
deserialization as the parsed envelope. -/
def fixture_response : ChatResponse :=
  ⟨[⟨⟨"assistant", some "Hello!"⟩⟩], ⟨42⟩⟩

/-- The fixture wrapped as the outcome of a POST answered with HTTP 200. -/
def fixture_remote : RemoteResponse :=
  .http_response 200 (.ok fixture_response)

/-
Helper lemmas, shared between the claim theorems below.
-/

/-- Whatever the outcome, one call to `ChatBot::chat` either appends exactly
the user Message, or exactly the user Message followed by one reply
Message. -/
theorem submit_messages_shape (b : ChatBot) (text : String)
    (remote : RemoteResponse) :
    (b.submit text remote).1.chat.messages
        = b.chat.messages ++ [⟨"user", some text⟩] ∨
    ∃ m : Message, (b.submit text remote).1.chat.messages
        = b.chat.messages ++ [⟨"user", some text⟩, m] := by
  unfold ChatBot.submit
  cases hs : Client.send b.auth_token (b.chat.add_user_text text).messages remote with
  | error e =>
    left
    simp [Chat.add_user_text]
  | ok p =>
    obtain ⟨m, tokens⟩ := p
    right
    refine ⟨m, ?_⟩
    cases hc : m.content <;>
      simp [hc, Chat.add_user_text, Chat.add_message]

/-- One `submit` call grows the history by at most two Messages. -/
theorem submit_length_le (b : ChatBot) (text : String) (remote : RemoteResponse) :
    (b.submit text remote).1.chat.messages.length
        ≤ b.chat.messages.length + 2 := by
  rcases submit_messages_shape b text remote with h1 | ⟨m, h2⟩
  · simp [h1]
  · simp [h2]

/-- The history length after a trace of `submit` calls is bounded by the
starting length plus twice the number of calls. -/
theorem state_after_length (trace : List (String × RemoteResponse))
    (b : ChatBot) :
    (b.state_after trace).chat.messages.length
        ≤ b.chat.messages.length + 2 * trace.length := by
  induction trace generalizing b with
  | nil => simp [ChatBot.state_after]
  | cons p rest ih =>
    obtain ⟨t, r⟩ := p
    have hstep := submit_length_le b t r
    have htail := ih (b.submit t r).1
    simp only [ChatBot.state_after, List.length_cons]
    omega

/-- The history passed to `Client::send` on call n (0-based) of a trace is the
history accumulated by the first n calls with the call's own user Message
appended. -/
theorem run_trace_getD (trace : List (String × RemoteResponse)) (b : ChatBot)
    (n : Nat) (h : n < trace.length) :
    (b.run_trace trace).getD n []
      = ((b.state_after (trace.take n)).chat.add_user_text
          (trace.getD n default).1).messages := by
  induction trace generalizing b n with
  | nil => simp at h
  | cons p rest ih =>
    obtain ⟨t, r⟩ := p
    cases n with
    | zero =>
      simp [ChatBot.run_trace, ChatBot.state_after, ChatBot.sent_history]
    | succ k =>
      simp only [ChatBot.run_trace, List.getD_cons_succ, List.take_succ_cons,
        ChatBot.state_after]
      exact ih (b.submit t r).1 k (by simpa using h)

/-- A 2xx status is never a 5xx status. -/
theorem not_server_error_of_success (s : Nat)
    (h : status_is_success s = true) : status_is_server_error s = false := by
  simp only [status_is_success, Bool.and_eq_true, decide_eq_true_eq] at h
  have h5 : ¬ 500 ≤ s := by omega
  simp [status_is_server_error, h5]

/-
Claim theorems.
-/

/-- C1: for every user input text, if the Transport Adapter's send succeeds
and the returned assistant Message has content, then submit (ChatBot::chat)
succeeds, the Conversation's length increases by exactly 2 (the appended user
Message followed by the assistant Message), and the returned text equals the
assistant Message's content. -/
theorem claim_C1 (b : ChatBot) (text : String) (remote : RemoteResponse)
    (msg : Message) (tokens : Nat) (c : String)
    (hsend : Client.send b.auth_token (b.chat.add_user_text text).messages remote
        = .ok (msg, tokens))
    (hcontent : msg.content = some c) :
    (b.submit text remote).1.chat.messages
        = b.chat.messages ++ [⟨"user", some text⟩, msg] ∧
    (b.submit text remote).1.chat.messages.length
        = b.chat.messages.length + 2 ∧
    (b.submit text remote).2 = .ok (c, tokens) := by
  simp only [Chat.add_user_text] at hsend
  simp [ChatBot.submit, Chat.add_user_text, Chat.add_message, hsend, hcontent]

/-- Witness for C1 at the spec's Scenario A: submit Hi against the fixture
response from a fresh bot yields Hello! with 42 tokens and a two-entry
Conversation. -/
theorem claim_C1_witness :
    Client.send (ChatBot.new "k").auth_token
        ((ChatBot.new "k").chat.add_user_text "Hi").messages fixture_remote
      = .ok (⟨"assistant", some "Hello!"⟩, 42) ∧
    (Message.mk "assistant" (some "Hello!")).content = some "Hello!" ∧
    (((ChatBot.new "k").submit "Hi" fixture_remote).1.chat.messages
        = (ChatBot.new "k").chat.messages
            ++ [⟨"user", some "Hi"⟩, ⟨"assistant", some "Hello!"⟩] ∧
      ((ChatBot.new "k").submit "Hi" fixture_remote).1.chat.messages.length
        = (ChatBot.new "k").chat.messages.length + 2 ∧
      ((ChatBot.new "k").submit "Hi" fixture_remote).2 = .ok ("Hello!", 42)) :=
  ⟨rfl, rfl,
    claim_C1 (ChatBot.new "k") "Hi" fixture_remote
      ⟨"assistant", some "Hello!"⟩ 42 "Hello!" rfl rfl⟩

/-- C2: for every user input text, if the Transport Adapter's send returns an
error, then submit (ChatBot::chat) returns that error and the Conversation's
length increases by exactly 1: only the user Message is appended, and it is
not rolled back. -/
theorem claim_C2 (b : ChatBot) (text : String) (remote : RemoteResponse)
    (e : ChatError)
    (hsend : Client.send b.auth_token (b.chat.add_user_text text).messages remote
        = .error e) :
    (b.submit text remote).1.chat.messages
        = b.chat.messages ++ [⟨"user", some text⟩] ∧
    (b.submit text remote).1.chat.messages.length
        = b.chat.messages.length + 1 ∧
    (b.submit text remote).2 = .error e := by
  simp only [Chat.add_user_text] at hsend
  simp [ChatBot.submit, Chat.add_user_text, hsend]

/-- Witness for C2 at the spec's Scenario B: submit Hi against an HTTP 500
response from a fresh bot fails with the status error and leaves a one-entry
Conversation. -/
theorem claim_C2_witness :
    Client.send (ChatBot.new "k").auth_token
        ((ChatBot.new "k").chat.add_user_text "Hi").messages
        (.http_response 500 (.ok fixture_response))
      = .error (.remote_status_error 500) ∧
    (((ChatBot.new "k").submit "Hi" (.http_response 500 (.ok fixture_response))).1.chat.messages
        = (ChatBot.new "k").chat.messages ++ [⟨"user", some "Hi"⟩] ∧
      ((ChatBot.new "k").submit "Hi" (.http_response 500 (.ok fixture_response))).1.chat.messages.length
        = (ChatBot.new "k").chat.messages.length + 1 ∧
      ((ChatBot.new "k").submit "Hi" (.http_response 500 (.ok fixture_response))).2
        = .error (.remote_status_error 500)) :=
  ⟨rfl,
    claim_C2 (ChatBot.new "k") "Hi" (.http_response 500 (.ok fixture_response))
      (.remote_status_error 500) rfl⟩

/-- C3: for every user input text, if the Transport Adapter's send succeeds
but the returned assistant Message has no content, then submit (ChatBot::chat)
returns the missing-content error and the Conversation has nevertheless grown
by exactly 2 entries: the content-less assistant Message is appended before
the failure is reported. -/
theorem claim_C3 (b : ChatBot) (text : String) (remote : RemoteResponse)
    (msg : Message) (tokens : Nat)
    (hsend : Client.send b.auth_token (b.chat.add_user_text text).messages remote
        = .ok (msg, tokens))
    (hcontent : msg.content = none) :
    (b.submit text remote).1.chat.messages
        = b.chat.messages ++ [⟨"user", some text⟩, msg] ∧
    (b.submit text remote).1.chat.messages.length
        = b.chat.messages.length + 2 ∧
    (b.submit text remote).2 = .error .missing_content_error := by
  simp only [Chat.add_user_text] at hsend
  simp [ChatBot.submit, Chat.add_user_text, Chat.add_message, hsend, hcontent]

/-- Witness for C3 at the spec's Scenario C: submit Hi against a response
whose assistant Message has no content (5 tokens) fails with the
missing-content error, yet the Conversation has two entries. -/
theorem claim_C3_witness :
    Client.send (ChatBot.new "k").auth_token
        ((ChatBot.new "k").chat.add_user_text "Hi").messages
        (.http_response 200 (.ok ⟨[⟨⟨"assistant", none⟩⟩], ⟨5⟩⟩))
      = .ok (⟨"assistant", none⟩, 5) ∧
    (Message.mk "assistant" none).content = none ∧
    (((ChatBot.new "k").submit "Hi"
          (.http_response 200 (.ok ⟨[⟨⟨"assistant", none⟩⟩], ⟨5⟩⟩))).1.chat.messages
        = (ChatBot.new "k").chat.messages
            ++ [⟨"user", some "Hi"⟩, ⟨"assistant", none⟩] ∧
      ((ChatBot.new "k").submit "Hi"
          (.http_response 200 (.ok ⟨[⟨⟨"assistant", none⟩⟩], ⟨5⟩⟩))).1.chat.messages.length
        = (ChatBot.new "k").chat.messages.length + 2 ∧
      ((ChatBot.new "k").submit "Hi"
          (.http_response 200 (.ok ⟨[⟨⟨"assistant", none⟩⟩], ⟨5⟩⟩))).2
        = .error .missing_content_error) :=
  ⟨rfl, rfl,
    claim_C3 (ChatBot.new "k") "Hi"
      (.http_response 200 (.ok ⟨[⟨⟨"assistant", none⟩⟩], ⟨5⟩⟩))
      ⟨"assistant", none⟩ 5 rfl rfl⟩

/-- C4: for every N >= 1, the sequence of Messages passed to send on the Nth
call to submit (0-based n here, N = n + 1) equals the Messages accumulated
from the prior successful and failed calls with the call's own user Message
appended, in exact insertion order — which is the first 2N-1 accumulated
Messages (taking 2N-1 is the identity on it); and the Request Envelope is
built from it with model = MODEL and temperature = 0.7. -/
theorem claim_C4 (tok : String) (trace : List (String × RemoteResponse))
    (n : Nat) (h : n < trace.length) :
    ((ChatBot.new tok).run_trace trace).getD n []
        = (((ChatBot.new tok).state_after (trace.take n)).chat.add_user_text
            (trace.getD n default).1).messages ∧
    (((ChatBot.new tok).run_trace trace).getD n []).take (2 * n + 1)
        = ((ChatBot.new tok).run_trace trace).getD n [] ∧
    Client.build_request (((ChatBot.new tok).run_trace trace).getD n [])
        = { model := MODEL,
            messages := ((ChatBot.new tok).run_trace trace).getD n [],
            temperature := some (0.7 : ℚ) } := by
  refine ⟨run_trace_getD trace (ChatBot.new tok) n h, ?_, rfl⟩
  rw [run_trace_getD trace (ChatBot.new tok) n h]
  apply List.take_of_length_le
  have hstate := state_after_length (trace.take n) (ChatBot.new tok)
  have htake : (trace.take n).length ≤ n := List.length_take_le n trace
  simp only [ChatBot.new, Chat.new, Chat.add_user_text, List.length_append,
    List.length_nil, List.length_cons] at *
  omega

/-- Witness for C4: a one-call trace from a fresh bot; the history passed on
call 1 is the single fresh user Message, untouched by taking the first 1. -/
theorem claim_C4_witness :
    0 < ([("Hi", fixture_remote)] : List (String × RemoteResponse)).length ∧
    (((ChatBot.new "k").run_trace [("Hi", fixture_remote)]).getD 0 []).take 1
        = ((ChatBot.new "k").run_trace [("Hi", fixture_remote)]).getD 0 [] :=
  ⟨by decide, (claim_C4 "k" [("Hi", fixture_remote)] 0 (by decide)).2.1⟩

/-- C5 (amended): auth_token returns the environment variable's value when it
is set; otherwise the ENTIRE contents of the key file trimmed of surrounding
whitespace (not the first non-empty line); if both sources are missing it
returns an error. -/
theorem claim_C5 :
    (∀ (v : String) (key_file : Option String),
        auth_token (some v) key_file = .ok v) ∧
    (∀ contents : String,
        auth_token none (some contents) = .ok (rust_trim contents)) ∧
    (∃ e : String, auth_token none none = .error e) :=
  ⟨fun _ _ => rfl, fun _ => rfl, ⟨_, rfl⟩⟩

/-- Counterexample for C5 as stated: on a key file holding two non-empty
lines, the code returns both lines (whole contents trimmed), while the first
non-empty line trimmed would be just the first line. -/
theorem claim_C5_counterexample :
    auth_token none (some "key1\nkey2\n") = .ok "key1\nkey2" ∧
    spec_first_nonempty_line_trimmed "key1\nkey2\n" = "key1" ∧
    ("key1\nkey2" : String) ≠ "key1" := by
  refine ⟨by decide, by decide, by decide⟩

/-- C6: for every response whose HTTP status is not a success (2xx), send
returns an error carrying the status code, and the result is the same for
every body — the body is never deserialized (and there is no retry: send is a
single function of one POST outcome). -/
theorem claim_C6 (auth : String) (messages : List Message) (status : Nat)
    (body : Except String ChatResponse)
    (h : status_is_success status = false) :
    Client.send auth messages (.http_response status body)
        = .error (.remote_status_error status) := by
  simp [Client.send, h]

/-- Witness for C6: HTTP 500 with a perfectly parseable body still yields the
status error. -/
theorem claim_C6_witness :
    status_is_success 500 = false ∧
    Client.send "k" [] (.http_response 500 (.ok fixture_response))
        = .error (.remote_status_error 500) :=
  ⟨by decide, claim_C6 "k" [] 500 (.ok fixture_response) (by decide)⟩

/-- C7: for every successful response whose body deserializes to an envelope,
send returns the first choice's Message unmodified with usage.total_tokens,
or the no-choice error when the choices list is empty; in particular on the
spec's fixture envelope it returns the assistant message Hello! with 42. -/
theorem claim_C7 (auth : String) (messages : List Message) (status : Nat)
    (r : ChatResponse) (h : status_is_success status = true) :
    (r.choices = [] →
      Client.send auth messages (.http_response status (.ok r))
          = .error .no_choice_error) ∧
    (∀ (choice : Choice) (rest : List Choice), r.choices = choice :: rest →
      Client.send auth messages (.http_response status (.ok r))
          = .ok (choice.message, r.usage.total_tokens)) ∧
    Client.send auth messages (.http_response 200 (.ok fixture_response))
        = .ok (⟨"assistant", some "Hello!"⟩, 42) := by
  refine ⟨?_, ?_, rfl⟩
  · intro hnil
    simp [Client.send, h, hnil]
  · intro choice rest hcons
    simp [Client.send, h, hcons]

/-- Witness for C7: at status 200, an empty-choices envelope gives the
no-choice error and the fixture envelope gives (assistant Hello!, 42). -/
theorem claim_C7_witness :
    status_is_success 200 = true ∧
    Client.send "k" [] (.http_response 200 (.ok ⟨[], ⟨5⟩⟩))
        = .error .no_choice_error ∧
    Client.send "k" [] (.http_response 200 (.ok fixture_response))
        = .ok (⟨"assistant", some "Hello!"⟩, 42) :=
  ⟨by decide,
    (claim_C7 "k" [] 200 ⟨[], ⟨5⟩⟩ (by decide)).1 rfl,
    (claim_C7 "k" [] 200 fixture_response (by decide)).2.2⟩

/-- C8: clear empties the Conversation whatever its prior state, touches
nothing else of the ChatBot's state (the auth token is unchanged), and is
idempotent: clearing twice equals clearing once. -/
theorem claim_C8 (b : ChatBot) :
    b.clear.chat.messages = [] ∧
    b.clear.auth_token = b.auth_token ∧
    b.clear.clear = b.clear :=
  ⟨rfl, rfl, rfl⟩

/-- C10: every submit call, whatever its outcome, only appends to the
history: the old sequence is left unchanged as an initial segment, extended
either by the user Message alone or by the user Message and one reply
Message, and the Message appended from the user input has role user and
content Some(text). -/
theorem claim_C10 (b : ChatBot) (text : String) (remote : RemoteResponse) :
    (b.submit text remote).1.chat.messages
        = b.chat.messages ++ [⟨"user", some text⟩] ∨
    ∃ m : Message, (b.submit text remote).1.chat.messages
        = b.chat.messages ++ [⟨"user", some text⟩, m] :=
  submit_messages_shape b text remote

/-- C9: the inline ChatBot::chat of main.rs and the bot.rs ChatBot::chat
delegating to Client::send are behaviorally equivalent: started from equal
histories, on the same input and the same remote outcome they leave equal
histories, succeed or fail together, and their success values agree up to the
order of the returned pair (bot.rs returns (text, tokens), main.rs
(tokens, text)). -/
theorem claim_C9 (b : ChatBot) (m : MainChatBot) (text : String)
    (remote : RemoteResponse) (h : b.chat.messages = m.chat.messages) :
    (b.submit text remote).1.chat.messages
        = (m.submit text remote).1.chat.messages ∧
    (b.submit text remote).2.isOk = (m.submit text remote).2.isOk ∧
    (b.submit text remote).2.toOption.map (fun p => (p.2, p.1))
        = (m.submit text remote).2.toOption := by
  cases remote with
  | transport_failure e =>
    simp [ChatBot.submit, MainChatBot.submit, Client.send, Chat.add_user_text,
      h, Except.isOk, Except.toBool, Except.toOption]
  | http_response status body =>
    cases hs : status_is_success status with
    | false =>
      cases hserv : status_is_server_error status <;>
        simp [ChatBot.submit, MainChatBot.submit, Client.send,
          Chat.add_user_text, h, hs, hserv, Except.isOk, Except.toBool, Except.toOption]
    | true =>
      have hserv := not_server_error_of_success status hs
      cases body with
      | error e =>
        simp [ChatBot.submit, MainChatBot.submit, Client.send,
          Chat.add_user_text, h, hs, hserv, Except.isOk, Except.toBool, Except.toOption]
      | ok r =>
        cases hh : r.choices.head? with
        | none =>
          simp [ChatBot.submit, MainChatBot.submit, Client.send,
            Chat.add_user_text, h, hs, hserv, hh, Except.isOk, Except.toBool, Except.toOption]
        | some choice =>
          cases hc : choice.message.content with
          | none =>
            simp [ChatBot.submit, MainChatBot.submit, Client.send,
              Chat.add_user_text, Chat.add_message, h, hs, hserv, hh, hc,
              Except.isOk, Except.toBool, Except.toOption]
          | some t =>
            simp [ChatBot.submit, MainChatBot.submit, Client.send,
              Chat.add_user_text, Chat.add_message, h, hs, hserv, hh, hc,
              Except.isOk, Except.toBool, Except.toOption]

/-- Witness for C9: fresh bots of either variant submitting Hi against the
fixture response leave equal histories and agree on the result up to the pair
order. -/
theorem claim_C9_witness :
    (ChatBot.new "k").chat.messages = (MainChatBot.new "k").chat.messages ∧
    (((ChatBot.new "k").submit "Hi" fixture_remote).1.chat.messages
        = ((MainChatBot.new "k").submit "Hi" fixture_remote).1.chat.messages ∧
      ((ChatBot.new "k").submit "Hi" fixture_remote).2.isOk
        = ((MainChatBot.new "k").submit "Hi" fixture_remote).2.isOk ∧
      ((ChatBot.new "k").submit "Hi" fixture_remote).2.toOption.map
          (fun p => (p.2, p.1))
        = ((MainChatBot.new "k").submit "Hi" fixture_remote).2.toOption) :=
  ⟨rfl, claim_C9 (ChatBot.new "k") (MainChatBot.new "k") "Hi" fixture_remote rfl⟩

end ChatGptCli
